import Mathlib

/-!
# Verification of the sprint-health metrics engine

A shallow embedding, in Lean 4, of the metrics and scoring core of the
sprint-health dashboard (`backend/crud.py`, `backend/main.py`), together with
theorems settling the specification's claims about it.

Conventions of the embedding:
* pandas DataFrames become Lean lists of records;
* timestamps become rationals (days since an arbitrary epoch), so that
  `timedelta(days = 2)` is `+ 2`, `.date()` is `Int.floor` and
  `Timedelta.days` of a non-negative span is `Int.floor` of the span;
* `NaN` / missing string cells become `Option.none`;
* Python `round(x, 1)` (one decimal, ties to even) becomes `round1`;
* Python `str.lower()` on the Russian/English status strings of this data set
  becomes `ruLower`.
-/

namespace SprintHealth

/-- Lower-case one character: ASCII `A`-`Z` and Cyrillic `А`-`Я` move down by
32 code points, `Ё` maps to `ё`; everything else is unchanged.  This matches
Python `str.lower()` on every string occurring in the engine's data. -/
def ruLowerChar (c : Char) : Char :=
  if 'A' ≤ c ∧ c ≤ 'Z' then Char.ofNat (c.toNat + 32)
  else if 'А' ≤ c ∧ c ≤ 'Я' then Char.ofNat (c.toNat + 32)
  else if c = 'Ё' then 'ё'
  else c

/-- Python `str.lower()` for the engine's status/resolution/link strings. -/
def ruLower (s : String) : String :=
  String.mk (s.toList.map ruLowerChar)

/-- Python's substring test `needle in hay`. -/
def containsSub (needle hay : String) : Bool :=
  hay.toList.tails.any (fun t => needle.toList.isPrefixOf t)

/-- Round a rational to the nearest integer, ties to even — the semantics of
Python's built-in `round` on exact values. -/
def roundHalfEven (x : ℚ) : ℤ :=
  if x - ⌊x⌋ < 1/2 then ⌊x⌋
  else if 1/2 < x - ⌊x⌋ then ⌊x⌋ + 1
  else if 2 ∣ ⌊x⌋ then ⌊x⌋ else ⌊x⌋ + 1

/-- Python `round(x, 1)`: one decimal place, ties to even. -/
def round1 (x : ℚ) : ℚ :=
  (roundHalfEven (10 * x) : ℚ) / 10

/-- A task row, as consumed by the aggregators.  `resolution`, `updateDate`
and `links` model nullable columns. -/
structure Task where
  entityId : ℤ
  status : String
  resolution : Option String
  estimation : ℚ
  createDate : ℚ
  updateDate : Option ℚ
  area : String
  links : Option String
  deriving Repr, DecidableEq

/-- The `todo_statuses` set of `calculate_todo` (crud.py:24). -/
def todoStatuses : List String :=
  ["к выполнению", "создано", "готово к разработке", "новый",
   "открыто", "запланировано", "отложен", "в ожидании"]

/-- The `done_statuses` set of `calculate_in_progress` / `calculate_done`
(crud.py:45,66). -/
def doneStatuses : List String :=
  ["закрыто", "выполнено", "ст завершено", "завершено"]

/-- The four `removed_resolutions` of `calculate_in_progress`,
`calculate_done` and `calculate_removed` (crud.py:46,67,88). -/
def removedResolutions : List String :=
  ["отклонено", "отменено инициатором", "дубликат", "отклонен исполнителем"]

/-- The three-element resolution list that blocks a task from the todo bucket
(crud.py:36). -/
def todoBlockingResolutions : List String :=
  ["отклонено", "отменено инициатором", "дубликат"]

/-- The two-element status set of `calculate_removed` (crud.py:87). -/
def removedStatuses : List String :=
  ["закрыто", "выполнено"]

/-- Row predicate of `calculate_todo` (crud.py:32-37): lower-cased status in
the todo set, and resolution null or not in the three blocking resolutions. -/
def isTodoTask (t : Task) : Bool :=
  todoStatuses.contains (ruLower t.status) &&
    (match t.resolution with
     | none => true
     | some r => !(todoBlockingResolutions.contains (ruLower r)))

/-- Row predicate of `calculate_in_progress` (crud.py:51-59): status neither
todo nor done, and resolution null or not a removed-resolution. -/
def isInProgressTask (t : Task) : Bool :=
  !(todoStatuses.contains (ruLower t.status)) &&
  !(doneStatuses.contains (ruLower t.status)) &&
    (match t.resolution with
     | none => true
     | some r => !(removedResolutions.contains (ruLower r)))

/-- Row predicate of `calculate_done` (crud.py:69-74): status in the done set,
and resolution null or not a removed-resolution. -/
def isDoneTask (t : Task) : Bool :=
  doneStatuses.contains (ruLower t.status) &&
    (match t.resolution with
     | none => true
     | some r => !(removedResolutions.contains (ruLower r)))

/-- Row predicate of `calculate_removed` (crud.py:93-96): status in the
two-element set `{закрыто, выполнено}` and resolution in the removed
resolutions (a null resolution never passes `isin`). -/
def isRemovedTask (t : Task) : Bool :=
  removedStatuses.contains (ruLower t.status) &&
    (match t.resolution with
     | none => false
     | some r => removedResolutions.contains (ruLower r))

/-- `df['estimation'].sum()` over a task list. -/
def estimationSum (l : List Task) : ℚ :=
  (l.map (fun t => t.estimation)).sum

/-- `calculate_todo` (crud.py:17-40), the value component:
`round(todo_tasks['estimation'].sum() / 3600, 1)`. -/
def calculate_todo (tasks : List Task) : ℚ :=
  round1 (estimationSum (tasks.filter isTodoTask) / 3600)

/-- `calculate_in_progress` (crud.py:42-61). -/
def calculate_in_progress (tasks : List Task) : ℚ :=
  round1 (estimationSum (tasks.filter isInProgressTask) / 3600)

/-- `calculate_done` (crud.py:63-82). -/
def calculate_done (tasks : List Task) : ℚ :=
  round1 (estimationSum (tasks.filter isDoneTask) / 3600)

/-- `calculate_removed` (crud.py:84-100). -/
def calculate_removed (tasks : List Task) : ℚ :=
  round1 (estimationSum (tasks.filter isRemovedTask) / 3600)

theorem roundHalfEven_ge_floor (x : ℚ) : ⌊x⌋ ≤ roundHalfEven x := by
  unfold roundHalfEven
  split_ifs <;> omega

theorem roundHalfEven_le_floor_add_one (x : ℚ) : roundHalfEven x ≤ ⌊x⌋ + 1 := by
  unfold roundHalfEven
  split_ifs <;> omega

theorem abs_roundHalfEven_sub (x : ℚ) : |(roundHalfEven x : ℚ) - x| ≤ 1/2 := by
  have hfl : (⌊x⌋ : ℚ) ≤ x := Int.floor_le x
  have hfu : x < (⌊x⌋ : ℚ) + 1 := Int.lt_floor_add_one x
  unfold roundHalfEven
  split_ifs with h1 h2 h3 <;> rw [abs_le] <;> push_cast <;> constructor <;> linarith

theorem abs_round1_sub (x : ℚ) : |round1 x - x| ≤ 1/20 := by
  have h := abs_roundHalfEven_sub (10 * x)
  have h10 : round1 x - x = ((roundHalfEven (10 * x) : ℚ) - 10 * x) / 10 := by
    unfold round1; ring
  rw [h10, abs_div]
  have habs10 : |(10 : ℚ)| = 10 := by norm_num
  rw [habs10]
  linarith

theorem roundHalfEven_mono {x y : ℚ} (hxy : x ≤ y) :
    roundHalfEven x ≤ roundHalfEven y := by
  rcases lt_or_eq_of_le (Int.floor_mono hxy) with hf | hf
  · calc roundHalfEven x ≤ ⌊x⌋ + 1 := roundHalfEven_le_floor_add_one x
      _ ≤ ⌊y⌋ := by omega
      _ ≤ roundHalfEven y := roundHalfEven_ge_floor y
  · have hxf : (⌊x⌋ : ℚ) ≤ x := Int.floor_le x
    have hyf : y < (⌊y⌋ : ℚ) + 1 := Int.lt_floor_add_one y
    unfold roundHalfEven
    rw [hf]
    split_ifs <;> first | omega | linarith

theorem round1_zero : round1 0 = 0 := by
  unfold round1 roundHalfEven
  norm_num

theorem round1_mono {x y : ℚ} (hxy : x ≤ y) : round1 x ≤ round1 y := by
  unfold round1
  have h : roundHalfEven (10 * x) ≤ roundHalfEven (10 * y) :=
    roundHalfEven_mono (by linarith)
  have : ((roundHalfEven (10 * x) : ℚ)) ≤ ((roundHalfEven (10 * y) : ℚ)) := by
    exact_mod_cast h
  linarith

theorem contains_eq_decide (l : List String) (s : String) :
    l.contains s = decide (s ∈ l) :=
  List.elem_eq_mem s l

theorem mem_todo_not_done {s : String} (h : s ∈ todoStatuses) : s ∉ doneStatuses := by
  fin_cases h <;> decide

theorem mem_todo_not_removedStatus {s : String} (h : s ∈ todoStatuses) :
    s ∉ removedStatuses := by
  fin_cases h <;> decide

theorem mem_removed_done {s : String} (h : s ∈ removedStatuses) : s ∈ doneStatuses := by
  fin_cases h <;> decide

theorem mem_blocking_removedRes {r : String} (h : r ∈ todoBlockingResolutions) :
    r ∈ removedResolutions := by
  fin_cases h <;> decide

/-- A task that the four bucket rules of crud.py silently drop: its
(lower-cased) resolution is a removed-resolution while its status is outside
`{закрыто, выполнено}`, except that a todo-status task whose resolution is
`отклонен исполнителем` (not in the three-element blocking list) still counts
as todo. -/
def droppedTask (t : Task) : Bool :=
  match t.resolution with
  | none => false
  | some r =>
      removedResolutions.contains (ruLower r) &&
      !(removedStatuses.contains (ruLower t.status)) &&
      (!(todoStatuses.contains (ruLower t.status)) ||
        todoBlockingResolutions.contains (ruLower r))

/-- Each task lands in exactly one of the four buckets unless it is dropped,
in which case it lands in none. -/
theorem bucket_indicator (t : Task) :
    (isTodoTask t).toNat + (isInProgressTask t).toNat + (isDoneTask t).toNat +
      (isRemovedTask t).toNat = if droppedTask t then 0 else 1 := by
  have hTD := @mem_todo_not_done (ruLower t.status)
  have hTR := @mem_todo_not_removedStatus (ruLower t.status)
  have hRD := @mem_removed_done (ruLower t.status)
  unfold isTodoTask isInProgressTask isDoneTask isRemovedTask droppedTask
  cases hres : t.resolution with
  | none =>
      simp only [contains_eq_decide]
      by_cases hA : ruLower t.status ∈ todoStatuses <;>
        by_cases hD : ruLower t.status ∈ doneStatuses <;>
        by_cases hRm : ruLower t.status ∈ removedStatuses <;>
        simp_all
  | some r =>
      have hBR := @mem_blocking_removedRes (ruLower r)
      simp only [contains_eq_decide]
      by_cases hA : ruLower t.status ∈ todoStatuses <;>
        by_cases hD : ruLower t.status ∈ doneStatuses <;>
        by_cases hRm : ruLower t.status ∈ removedStatuses <;>
        by_cases hB4 : ruLower r ∈ removedResolutions <;>
        by_cases hB3 : ruLower r ∈ todoBlockingResolutions <;>
        simp_all

theorem sum_four_filters {α : Type} (p q r s : α → Bool) (f : α → ℚ) :
    ∀ l : List α,
      (∀ t ∈ l, (p t).toNat + (q t).toNat + (r t).toNat + (s t).toNat = 1) →
      ((l.filter p).map f).sum + ((l.filter q).map f).sum +
          ((l.filter r).map f).sum + ((l.filter s).map f).sum = (l.map f).sum := by
  intro l
  induction l with
  | nil => simp
  | cons x xs ih =>
      intro h
      have hx := h x (List.mem_cons_self x xs)
      have hxs := ih (fun t ht => h t (List.mem_cons_of_mem x ht))
      cases hp : p x <;> cases hq : q x <;> cases hr : r x <;> cases hs : s x <;>
        simp [hp, hq, hr, hs] at hx ⊢ <;> linarith

theorem length_four_filters {α : Type} (p q r s : α → Bool) :
    ∀ l : List α,
      (∀ t ∈ l, (p t).toNat + (q t).toNat + (r t).toNat + (s t).toNat = 1) →
      (l.filter p).length + (l.filter q).length + (l.filter r).length +
          (l.filter s).length = l.length := by
  intro l
  induction l with
  | nil => simp
  | cons x xs ih =>
      intro h
      have hx := h x (List.mem_cons_self x xs)
      have hxs := ih (fun t ht => h t (List.mem_cons_of_mem x ht))
      cases hp : p x <;> cases hq : q x <;> cases hr : r x <;> cases hs : s x <;>
        simp [hp, hq, hr, hs] at hx ⊢ <;> omega

/-- C1: the partition invariant holds only for task lists with no dropped
task (amended claim); under that hypothesis the four bucket estimation sums
partition the total, the four counts partition the length, every task is in
exactly one bucket, and the rounded hour values agree with the exact total
hours within rounding tolerance. -/
theorem c1_partition_invariant (tasks : List Task)
    (h : ∀ t ∈ tasks, droppedTask t = false) :
    estimationSum (tasks.filter isTodoTask) + estimationSum (tasks.filter isInProgressTask) +
        estimationSum (tasks.filter isDoneTask) + estimationSum (tasks.filter isRemovedTask) =
      estimationSum tasks ∧
    (tasks.filter isTodoTask).length + (tasks.filter isInProgressTask).length +
        (tasks.filter isDoneTask).length + (tasks.filter isRemovedTask).length =
      tasks.length ∧
    (∀ t ∈ tasks, (isTodoTask t).toNat + (isInProgressTask t).toNat +
        (isDoneTask t).toNat + (isRemovedTask t).toNat = 1) ∧
    |calculate_todo tasks + calculate_in_progress tasks + calculate_done tasks +
        calculate_removed tasks - estimationSum tasks / 3600| ≤ 1/5 := by
  have hone : ∀ t ∈ tasks, (isTodoTask t).toNat + (isInProgressTask t).toNat +
      (isDoneTask t).toNat + (isRemovedTask t).toNat = 1 := by
    intro t ht
    have hb := bucket_indicator t
    rw [h t ht] at hb
    simpa using hb
  have hsum := sum_four_filters isTodoTask isInProgressTask isDoneTask isRemovedTask
    (fun t => t.estimation) tasks hone
  have hlen := length_four_filters isTodoTask isInProgressTask isDoneTask isRemovedTask
    tasks hone
  refine ⟨hsum, hlen, hone, ?_⟩
  have h1 := abs_round1_sub (estimationSum (tasks.filter isTodoTask) / 3600)
  have h2 := abs_round1_sub (estimationSum (tasks.filter isInProgressTask) / 3600)
  have h3 := abs_round1_sub (estimationSum (tasks.filter isDoneTask) / 3600)
  have h4 := abs_round1_sub (estimationSum (tasks.filter isRemovedTask) / 3600)
  rw [abs_le] at h1 h2 h3 h4 ⊢
  unfold calculate_todo calculate_in_progress calculate_done calculate_removed
  have hdiv : estimationSum (tasks.filter isTodoTask) / 3600 +
      estimationSum (tasks.filter isInProgressTask) / 3600 +
      estimationSum (tasks.filter isDoneTask) / 3600 +
      estimationSum (tasks.filter isRemovedTask) / 3600 = estimationSum tasks / 3600 := by
    unfold estimationSum at hsum ⊢
    field_simp
    linarith
  constructor <;> linarith

/-- A concrete task (status `Создано`, resolution `Отклонено`) that falls
into none of the four buckets. -/
def droppedExampleTask : Task :=
  { entityId := 1, status := "Создано", resolution := some "Отклонено",
    estimation := 3600, createDate := 0, updateDate := none,
    area := "Team", links := none }

/-- C1 fails as stated: for the one-task list `[droppedExampleTask]` all four
bucket sums are `0`, yet the subset totals one hour, and the task is counted
in none of the four buckets. -/
theorem c1_counterexample :
    calculate_todo [droppedExampleTask] = 0 ∧
    calculate_in_progress [droppedExampleTask] = 0 ∧
    calculate_done [droppedExampleTask] = 0 ∧
    calculate_removed [droppedExampleTask] = 0 ∧
    estimationSum [droppedExampleTask] / 3600 = 1 ∧
    (isTodoTask droppedExampleTask || isInProgressTask droppedExampleTask ||
      isDoneTask droppedExampleTask || isRemovedTask droppedExampleTask) = false := by
  have h1 : isTodoTask droppedExampleTask = false := by decide
  have h2 : isInProgressTask droppedExampleTask = false := by decide
  have h3 : isDoneTask droppedExampleTask = false := by decide
  have h4 : isRemovedTask droppedExampleTask = false := by decide
  refine ⟨?_, ?_, ?_, ?_, ?_, ?_⟩
  · simp [calculate_todo, estimationSum, h1, round1_zero]
  · simp [calculate_in_progress, estimationSum, h2, round1_zero]
  · simp [calculate_done, estimationSum, h3, round1_zero]
  · simp [calculate_removed, estimationSum, h4, round1_zero]
  · simp [estimationSum, droppedExampleTask]
  · simp [h1, h2, h3, h4]

/-- Scenario A of the spec: three tasks, statuses Создано / В работе /
Закрыто, the last resolved Готово. -/
def sampleTasks : List Task :=
  [{ entityId := 1, status := "Создано", resolution := some "",
     estimation := 3600, createDate := 1, updateDate := some 1,
     area := "Team", links := none },
   { entityId := 2, status := "В работе", resolution := some "",
     estimation := 7200, createDate := 1, updateDate := some 1,
     area := "Team", links := none },
   { entityId := 3, status := "Закрыто", resolution := some "Готово",
     estimation := 3600, createDate := 1, updateDate := some 1,
     area := "Team", links := none }]

theorem c1_partition_invariant_witness :
    (∀ t ∈ sampleTasks, droppedTask t = false) ∧
    (estimationSum (sampleTasks.filter isTodoTask) +
        estimationSum (sampleTasks.filter isInProgressTask) +
        estimationSum (sampleTasks.filter isDoneTask) +
        estimationSum (sampleTasks.filter isRemovedTask) = estimationSum sampleTasks ∧
      (sampleTasks.filter isTodoTask).length + (sampleTasks.filter isInProgressTask).length +
        (sampleTasks.filter isDoneTask).length + (sampleTasks.filter isRemovedTask).length =
        sampleTasks.length ∧
      (∀ t ∈ sampleTasks, (isTodoTask t).toNat + (isInProgressTask t).toNat +
        (isDoneTask t).toNat + (isRemovedTask t).toNat = 1) ∧
      |calculate_todo sampleTasks + calculate_in_progress sampleTasks +
        calculate_done sampleTasks + calculate_removed sampleTasks -
        estimationSum sampleTasks / 3600| ≤ 1/5) :=
  ⟨by decide, c1_partition_invariant sampleTasks (by decide)⟩

theorem roundHalfEven_intCast (n : ℤ) : roundHalfEven (n : ℚ) = n := by
  unfold roundHalfEven
  rw [Int.floor_intCast]
  norm_num

theorem round1_one : round1 1 = 1 := by
  unfold round1
  rw [show (10 : ℚ) * 1 = ((10 : ℤ) : ℚ) by norm_num, roundHalfEven_intCast]
  norm_num

/-- C2 counterexample task: status `Ст Завершено` (whose lower-casing is in
`calculate_done`'s done set) with the removed resolution `Отклонено`. -/
def stZavershenoTask : Task :=
  { entityId := 2, status := "Ст Завершено", resolution := some "Отклонено",
    estimation := 3600, createDate := 0, updateDate := none,
    area := "Team", links := none }

/-- C2 fails as stated: a task whose status is in the done-status set used by
`calculate_done` and whose resolution is a removed-resolution is NOT bucketed
as removed when the status is `ст завершено` — it lands in neither removed
nor done, contributing to neither hour sum. -/
theorem c2_counterexample :
    doneStatuses.contains (ruLower stZavershenoTask.status) = true ∧
    removedResolutions.contains (ruLower "Отклонено") = true ∧
    isRemovedTask stZavershenoTask = false ∧
    isDoneTask stZavershenoTask = false ∧
    calculate_removed [stZavershenoTask] = 0 ∧
    calculate_done [stZavershenoTask] = 0 := by
  have h3 : isRemovedTask stZavershenoTask = false := by decide
  have h4 : isDoneTask stZavershenoTask = false := by decide
  refine ⟨by decide, by decide, h3, h4, ?_, ?_⟩
  · simp [calculate_removed, estimationSum, h3, round1_zero]
  · simp [calculate_done, estimationSum, h4, round1_zero]

/-- C2 (amended): the removed-over-done precedence holds exactly for the two
statuses `закрыто` / `выполнено` that `calculate_removed` checks: such a task
is bucketed removed (its estimation feeds the removed hour sum) and not done. -/
theorem c2_amended_precedence (t : Task) (r : String)
    (hs : removedStatuses.contains (ruLower t.status) = true)
    (hr : t.resolution = some r)
    (hrr : removedResolutions.contains (ruLower r) = true) :
    isRemovedTask t = true ∧ isDoneTask t = false ∧
    calculate_removed [t] = round1 (t.estimation / 3600) ∧
    calculate_done [t] = 0 := by
  have hs' : ruLower t.status ∈ removedStatuses := List.elem_iff.mp hs
  have hrr' : ruLower r ∈ removedResolutions := List.elem_iff.mp hrr
  have hrem : isRemovedTask t = true := by
    unfold isRemovedTask
    rw [hr]
    simp [hs', hrr']
  have hdone : isDoneTask t = false := by
    unfold isDoneTask
    rw [hr]
    simp [hrr']
  refine ⟨hrem, hdone, ?_, ?_⟩
  · simp [calculate_removed, estimationSum, hrem]
  · simp [calculate_done, estimationSum, hdone, round1_zero]

/-- A removed task in scenario-B style: status `Закрыто`, resolution
`Дубликат`. -/
def removedExampleTask : Task :=
  { entityId := 3, status := "Закрыто", resolution := some "Дубликат",
    estimation := 7200, createDate := 0, updateDate := none,
    area := "Team", links := none }

theorem c2_amended_precedence_witness :
    (removedStatuses.contains (ruLower removedExampleTask.status) = true ∧
      removedExampleTask.resolution = some "Дубликат" ∧
      removedResolutions.contains (ruLower "Дубликат") = true) ∧
    (isRemovedTask removedExampleTask = true ∧ isDoneTask removedExampleTask = false ∧
      calculate_removed [removedExampleTask] = round1 (removedExampleTask.estimation / 3600) ∧
      calculate_done [removedExampleTask] = 0) :=
  ⟨⟨by decide, rfl, by decide⟩,
    c2_amended_precedence removedExampleTask "Дубликат" (by decide) rfl (by decide)⟩

/-- Modelled from the spec: the canonical penalty-based health-score model of
§4.5.  The module implementing it (`analysis/sprint_analyzer.py`, imported by
`sprint_health/main.py`) is not among the provided sources; only its callers
and the five factor names surviving in the `health_metrics` stub of
`crud.calculate_metrics` remain.  The score starts at 100, the five deductions
are applied in sequence, each clamped to its own cap, and the final score is
clamped to [0, 100]. -/
def healthScorePenaltyModel (evenness lastDayPct todoPct removedPct backlogPct : ℚ) : ℚ :=
  let s1 := if evenness < 70 then 100 - min ((70 - evenness) * (1/2)) 25 else 100
  let s2 := if lastDayPct > 30 then s1 - min ((lastDayPct - 30) * (1/2)) 25 else s1
  let s3 := if todoPct > 20 then s2 - min (todoPct - 20) 20 else s2
  let s4 := if removedPct > 10 then s3 - min ((removedPct - 10) * (3/2)) 15 else s3
  let s5 := if backlogPct > 20 then s4 - min (backlogPct - 20) 15 else s4
  max 0 (min 100 s5)

/-- Transition-evenness deduction of the spec's table: trigger `evenness < 70`,
formula `(70 - evenness) * 0.5`, cap 25. -/
def evennessPenalty (e : ℚ) : ℚ :=
  if e < 70 then min ((70 - e) * (1/2)) 25 else 0

/-- Last-day-completion deduction: trigger `pct > 30`, formula
`(pct - 30) * 0.5`, cap 25. -/
def lastDayPenalty (p : ℚ) : ℚ :=
  if p > 30 then min ((p - 30) * (1/2)) 25 else 0

/-- Todo-ratio deduction: trigger `pct > 20`, unweighted excess, cap 20. -/
def todoRatioPenalty (p : ℚ) : ℚ :=
  if p > 20 then min (p - 20) 20 else 0

/-- Removed-ratio deduction: trigger `pct > 10`, excess times 1.5, cap 15. -/
def removedRatioPenalty (p : ℚ) : ℚ :=
  if p > 10 then min ((p - 10) * (3/2)) 15 else 0

/-- Backlog-change deduction: trigger `pct > 20`, excess, cap 15. -/
def backlogChangePenalty (p : ℚ) : ℚ :=
  if p > 20 then min (p - 20) 15 else 0

theorem evennessPenalty_nonneg (e : ℚ) : 0 ≤ evennessPenalty e := by
  unfold evennessPenalty
  split_ifs with h
  · exact le_min (by linarith) (by norm_num)
  · exact le_refl 0

theorem lastDayPenalty_nonneg (p : ℚ) : 0 ≤ lastDayPenalty p := by
  unfold lastDayPenalty
  split_ifs with h
  · exact le_min (by linarith) (by norm_num)
  · exact le_refl 0

theorem todoRatioPenalty_nonneg (p : ℚ) : 0 ≤ todoRatioPenalty p := by
  unfold todoRatioPenalty
  split_ifs with h
  · exact le_min (by linarith) (by norm_num)
  · exact le_refl 0

theorem removedRatioPenalty_nonneg (p : ℚ) : 0 ≤ removedRatioPenalty p := by
  unfold removedRatioPenalty
  split_ifs with h
  · exact le_min (by linarith) (by norm_num)
  · exact le_refl 0

theorem backlogChangePenalty_nonneg (p : ℚ) : 0 ≤ backlogChangePenalty p := by
  unfold backlogChangePenalty
  split_ifs with h
  · exact le_min (by linarith) (by norm_num)
  · exact le_refl 0

/-- C3: the penalty-based model applies five independent deductions — the
sequential computation equals 100 minus the sum of the five individually
capped penalties, clamped to [0, 100] (the upper clamp being redundant since
all penalties are non-negative), and the score always lies in [0, 100]. -/
theorem c3_penalty_model (e l t r b : ℚ) :
    healthScorePenaltyModel e l t r b =
      max 0 (min 100 (100 - (evennessPenalty e + lastDayPenalty l + todoRatioPenalty t +
        removedRatioPenalty r + backlogChangePenalty b))) ∧
    healthScorePenaltyModel e l t r b =
      max 0 (100 - (evennessPenalty e + lastDayPenalty l + todoRatioPenalty t +
        removedRatioPenalty r + backlogChangePenalty b)) ∧
    0 ≤ healthScorePenaltyModel e l t r b ∧
    healthScorePenaltyModel e l t r b ≤ 100 := by
  have hsum : 0 ≤ evennessPenalty e + lastDayPenalty l + todoRatioPenalty t +
      removedRatioPenalty r + backlogChangePenalty b := by
    have := evennessPenalty_nonneg e
    have := lastDayPenalty_nonneg l
    have := todoRatioPenalty_nonneg t
    have := removedRatioPenalty_nonneg r
    have := backlogChangePenalty_nonneg b
    linarith
  have key : healthScorePenaltyModel e l t r b =
      max 0 (min 100 (100 - (evennessPenalty e + lastDayPenalty l + todoRatioPenalty t +
        removedRatioPenalty r + backlogChangePenalty b))) := by
    unfold healthScorePenaltyModel evennessPenalty lastDayPenalty todoRatioPenalty
      removedRatioPenalty backlogChangePenalty
    split_ifs <;> ring_nf
  have hmin : min 100 (100 - (evennessPenalty e + lastDayPenalty l + todoRatioPenalty t +
      removedRatioPenalty r + backlogChangePenalty b)) =
      100 - (evennessPenalty e + lastDayPenalty l + todoRatioPenalty t +
        removedRatioPenalty r + backlogChangePenalty b) :=
    min_eq_right (by linarith)
  refine ⟨key, by rw [key, hmin], ?_, ?_⟩
  · rw [key]; exact le_max_left 0 _
  · rw [key]
    exact max_le (by norm_num) (le_trans (min_le_left _ _) (by norm_num))

/-- Initial-scope estimation sum of `calculate_backlog_changes`
(crud.py:107-109): tasks created up to two days after sprint start. -/
def backlogInitialSum (tasks : List Task) (sprintStart : ℚ) : ℚ :=
  estimationSum (tasks.filter (fun t => decide (t.createDate ≤ sprintStart + 2)))

/-- Added-scope estimation sum of `calculate_backlog_changes`
(crud.py:111-113): tasks created after the two-day grace period. -/
def backlogAddedSum (tasks : List Task) (sprintStart : ℚ) : ℚ :=
  estimationSum (tasks.filter (fun t => decide (sprintStart + 2 < t.createDate)))

/-- `calculate_backlog_changes` (crud.py:102-119). -/
def calculate_backlog_changes (tasks : List Task) (sprintStart : ℚ) : ℚ :=
  if backlogInitialSum tasks sprintStart = 0 then 0
  else round1 (backlogAddedSum tasks sprintStart * 100 / backlogInitialSum tasks sprintStart)

/-- Two tasks: one created at day 0 with estimation 3000, one created at day
10 with estimation 1000. -/
def backlogExampleTasks : List Task :=
  [{ entityId := 1, status := "Создано", resolution := none,
     estimation := 3000, createDate := 0, updateDate := none,
     area := "Team", links := none },
   { entityId := 2, status := "Создано", resolution := none,
     estimation := 1000, createDate := 10, updateDate := none,
     area := "Team", links := none }]

theorem backlogExample_sums :
    backlogInitialSum backlogExampleTasks 0 = 3000 ∧
    backlogAddedSum backlogExampleTasks 0 = 1000 := by
  constructor <;>
    · simp [backlogInitialSum, backlogAddedSum, backlogExampleTasks, estimationSum]
      norm_num

/-- C4 fails as stated: the code rounds to one decimal, so the result differs
from the exact ratio `100 * added / initial` (here `100/3 %`). -/
theorem c4_counterexample :
    calculate_backlog_changes backlogExampleTasks 0 ≠
      100 * backlogAddedSum backlogExampleTasks 0 / backlogInitialSum backlogExampleTasks 0 := by
  have hs := backlogExample_sums
  have hval : calculate_backlog_changes backlogExampleTasks 0 = 333/10 := by
    unfold calculate_backlog_changes
    rw [hs.1, hs.2]
    rw [if_neg (by norm_num : ¬((3000 : ℚ) = 0))]
    have harg : (1000 : ℚ) * 100 / 3000 = 100/3 := by norm_num
    rw [harg]
    unfold round1
    have hfl : roundHalfEven (10 * (100/3 : ℚ)) = 333 := by
      have h1 : (10 : ℚ) * (100/3) = 1000/3 := by norm_num
      rw [h1]
      unfold roundHalfEven
      have hfloor : ⌊(1000/3 : ℚ)⌋ = 333 := by
        rw [Int.floor_eq_iff]
        constructor <;> norm_num
      rw [hfloor]
      norm_num
    rw [hfl]
    norm_num
  rw [hval, hs.1, hs.2]
  norm_num

/-- C4 (amended): `backlog_change_pct` is exactly 0 whenever the initial
estimation sum is 0 (no division occurs), and otherwise equals the exact
ratio `100 * added / initial` rounded to one decimal, hence within 0.05 of
the exact ratio. -/
theorem c4_backlog_change (tasks : List Task) (sprintStart : ℚ) :
    (backlogInitialSum tasks sprintStart = 0 →
      calculate_backlog_changes tasks sprintStart = 0) ∧
    (backlogInitialSum tasks sprintStart ≠ 0 →
      calculate_backlog_changes tasks sprintStart =
        round1 (100 * backlogAddedSum tasks sprintStart / backlogInitialSum tasks sprintStart) ∧
      |calculate_backlog_changes tasks sprintStart -
        100 * backlogAddedSum tasks sprintStart / backlogInitialSum tasks sprintStart| ≤ 1/20) := by
  constructor
  · intro h
    simp [calculate_backlog_changes, h]
  · intro h
    have hform : backlogAddedSum tasks sprintStart * 100 / backlogInitialSum tasks sprintStart =
        100 * backlogAddedSum tasks sprintStart / backlogInitialSum tasks sprintStart := by
      ring
    constructor
    · simp only [calculate_backlog_changes, h, if_false, hform]
    · simp only [calculate_backlog_changes, h, if_false, hform]
      exact abs_round1_sub _

theorem c4_backlog_change_witness :
    backlogInitialSum backlogExampleTasks 0 ≠ 0 ∧
    (calculate_backlog_changes backlogExampleTasks 0 =
      round1 (100 * backlogAddedSum backlogExampleTasks 0 /
        backlogInitialSum backlogExampleTasks 0) ∧
    |calculate_backlog_changes backlogExampleTasks 0 -
      100 * backlogAddedSum backlogExampleTasks 0 /
        backlogInitialSum backlogExampleTasks 0| ≤ 1/20) :=
  ⟨by rw [backlogExample_sums.1]; norm_num,
    (c4_backlog_change backlogExampleTasks 0).2
      (by rw [backlogExample_sums.1]; norm_num)⟩

/-- `selected_end_date` of `calculate_metrics` (crud.py:534-537):
`sprint_start + (sprint_end - sprint_start) * (time_frame / 100)`. -/
def cutoffDate (sprintStart sprintEnd timeFramePct : ℚ) : ℚ :=
  sprintStart + (sprintEnd - sprintStart) * (timeFramePct / 100)

/-- The sprint/time-frame task filter of `calculate_metrics` (crud.py:544-551):
entity id in the sprint's set, and (`create_date <= cutoff` or
`update_date <= cutoff` or (`update_date` null and `create_date <= cutoff`)).
A null `update_date` compares as false, as a pandas `NaT` does. -/
def timeFramePred (entityIds : List ℤ) (cutoff : ℚ) (t : Task) : Bool :=
  entityIds.contains t.entityId &&
    (decide (t.createDate ≤ cutoff) ||
      (match t.updateDate with
       | some u => decide (u ≤ cutoff)
       | none => false) ||
      (t.updateDate.isNone && decide (t.createDate ≤ cutoff)))

def timeFrameFilter (tasks : List Task) (entityIds : List ℤ) (cutoff : ℚ) : List Task :=
  tasks.filter (timeFramePred entityIds cutoff)

/-- The retention condition exactly as the spec words it: `create_date <=
cutoff` or `update_date <= cutoff`, tasks with no `update_date` judged by the
`create_date` test alone. -/
def specTimeFrameCond (cutoff : ℚ) (t : Task) : Prop :=
  match t.updateDate with
  | none => t.createDate ≤ cutoff
  | some u => t.createDate ≤ cutoff ∨ u ≤ cutoff

/-- C5: the time-frame filter retains exactly the tasks among the sprint's
entity ids satisfying the spec's condition at the cutoff
`sprint_start + (sprint_end - sprint_start) * (pct / 100)`. -/
theorem c5_time_frame_filter (tasks : List Task) (entityIds : List ℤ)
    (s e p : ℚ) (t : Task) :
    t ∈ timeFrameFilter tasks entityIds (cutoffDate s e p) ↔
      t ∈ tasks ∧ entityIds.contains t.entityId = true ∧
        specTimeFrameCond (cutoffDate s e p) t := by
  unfold timeFrameFilter timeFramePred specTimeFrameCond
  rw [List.mem_filter]
  cases hu : t.updateDate with
  | none => simp [hu, and_assoc]
  | some u => simp [hu, and_assoc, or_comm]

/-- Blocking-keyword test of `calculate_blocked_tasks` (crud.py:129): the
lower-cased `links` cell contains `заблокировано` or `is blocked by`; a null
cell never matches. -/
def hasBlockedLink (t : Task) : Bool :=
  match t.links with
  | none => false
  | some l =>
      containsSub "заблокировано" (ruLower l) || containsSub "is blocked by" (ruLower l)

/-- The status exclusion list of `calculate_blocked_tasks` (crud.py:130). -/
def blockedExcludedStatuses : List String :=
  ["закрыто", "выполнено", "done"]

/-- Row predicate of `calculate_blocked_tasks` (crud.py:128-131). -/
def isBlockedTask (t : Task) : Bool :=
  hasBlockedLink t && !(blockedExcludedStatuses.contains (ruLower t.status))

/-- `calculate_blocked_tasks` (crud.py:121-134); `hasLinksColumn = false`
models a task table with no `links` column. -/
def calculate_blocked_tasks (hasLinksColumn : Bool) (tasks : List Task) : ℚ :=
  if hasLinksColumn = false then 0
  else round1 (estimationSum (tasks.filter isBlockedTask) / 3600)

/-- The claim's reading of the blocked-hours sum: the excluded statuses are
taken to be the classifier's done-status set (`calculate_done`'s four
statuses) rather than the three-element list the code uses. -/
def claimBlockedHours (tasks : List Task) : ℚ :=
  round1 (estimationSum
    (tasks.filter (fun t => hasBlockedLink t && !(doneStatuses.contains (ruLower t.status)))) / 3600)

/-- A task in status `Завершено` (a done-status of the classifier) whose
links cell contains `is blocked by`. -/
def blockedDoneTask : Task :=
  { entityId := 4, status := "Завершено", resolution := none,
    estimation := 3600, createDate := 0, updateDate := none,
    area := "Team", links := some "is blocked by TASK-1" }

/-- C6 fails as stated: a blocked-link task in status `завершено` — a
done-status of the classifier — is still counted by `calculate_blocked_tasks`
(one hour), while the claim's reading counts nothing. -/
theorem c6_counterexample :
    calculate_blocked_tasks true [blockedDoneTask] = 1 ∧
    claimBlockedHours [blockedDoneTask] = 0 ∧
    doneStatuses.contains (ruLower blockedDoneTask.status) = true := by
  have h1 : isBlockedTask blockedDoneTask = true := by decide
  have h2 : (hasBlockedLink blockedDoneTask &&
      !(doneStatuses.contains (ruLower blockedDoneTask.status))) = false := by decide
  refine ⟨?_, ?_, by decide⟩
  · have hf : List.filter isBlockedTask [blockedDoneTask] = [blockedDoneTask] := by
      simp [h1]
    simp only [calculate_blocked_tasks, Bool.true_eq_false, if_false, hf, estimationSum,
      List.map_cons, List.map_nil, List.sum_cons, List.sum_nil]
    rw [show blockedDoneTask.estimation + 0 = 3600 from by norm_num [blockedDoneTask]]
    rw [show (3600 : ℚ) / 3600 = 1 from by norm_num]
    exact round1_one
  · have hf : List.filter
        (fun t => hasBlockedLink t && !(doneStatuses.contains (ruLower t.status)))
        [blockedDoneTask] = [] := by
      simp only [List.filter_cons, h2, Bool.false_eq_true, if_false, List.filter_nil]
    unfold claimBlockedHours
    rw [hf]
    simp [estimationSum, round1_zero]

/-- C6 (amended): blocked hours sum `estimation/3600` over exactly the tasks
whose links cell contains a blocking keyword (case-insensitive substring) and
whose lower-cased status is outside `{закрыто, выполнено, done}` — not the
classifier's full done-status set — rounded to one decimal; a table lacking
the `links` column yields 0 rather than an error. -/
theorem c6_blocked_hours (tasks : List Task) (t : Task) :
    calculate_blocked_tasks false tasks = 0 ∧
    calculate_blocked_tasks true tasks =
      round1 (estimationSum (tasks.filter isBlockedTask) / 3600) ∧
    (isBlockedTask t = true ↔
      ((∃ l, t.links = some l ∧
          (containsSub "заблокировано" (ruLower l) = true ∨
            containsSub "is blocked by" (ruLower l) = true)) ∧
        ruLower t.status ∉ blockedExcludedStatuses)) := by
  refine ⟨rfl, rfl, ?_⟩
  unfold isBlockedTask hasBlockedLink
  cases hl : t.links with
  | none => simp
  | some l => simp [contains_eq_decide]

/-- Per-day counters of `analyze_status_transitions` (crud.py:270-274). -/
structure DayStat where
  toInProgress : ℕ
  toDone : ℕ
  totalChanges : ℕ
  deriving Repr, DecidableEq

/-- `sum(day['total_changes'] for day in daily_stats.values())`. -/
def dailyTotalSum (stats : List (ℤ × DayStat)) : ℚ :=
  (stats.map (fun d => (d.2.totalChanges : ℚ))).sum

/-- `sum(abs(day['total_changes'] - ideal_daily) for day in ...)`. -/
def dailyDeviationSum (stats : List (ℤ × DayStat)) (ideal : ℚ) : ℚ :=
  (stats.map (fun d => |(d.2.totalChanges : ℚ) - ideal|)).sum

/-- `ideal_daily = total_changes / duration_days if duration_days > 0 else 0`
(crud.py:321). -/
def idealDaily (dailyStats : List (ℤ × DayStat)) (durationDays : ℤ) : ℚ :=
  if 0 < durationDays then dailyTotalSum dailyStats / durationDays else 0

/-- `calculate_transition_evenness` (crud.py:307-341).  On the live call path
`sprint_duration` is a pandas Timedelta, so `duration_days` is
`sprint_duration.days` — the floor of the (non-negative) day span, with no
lower bound of 1. -/
def calculate_transition_evenness (dailyStats : List (ℤ × DayStat))
    (durationDays : ℤ) : ℚ :=
  if dailyStats.isEmpty then 0
  else if (dailyStats.length : ℚ) = 0 ∨ idealDaily dailyStats durationDays = 0 then 0
  else
    max 0 (100 -
      (dailyDeviationSum dailyStats (idealDaily dailyStats durationDays) /
        (dailyStats.length : ℚ)) /
      idealDaily dailyStats durationDays * 100)

/-- The evenness formula exactly as the claim words it: identical except that
`duration_days` is floored at a minimum of 1. -/
def claimEvenness (dailyStats : List (ℤ × DayStat)) (durationDays : ℤ) : ℚ :=
  if dailyStats.isEmpty then 0
  else
    let d : ℤ := max 1 durationDays
    let idealDaily : ℚ := dailyTotalSum dailyStats / d
    if idealDaily = 0 then 0
    else
      let variance := dailyDeviationSum dailyStats idealDaily / dailyStats.length
      max 0 (100 * (1 - variance / idealDaily))

theorem dailyTotalSum_nonneg (stats : List (ℤ × DayStat)) : 0 ≤ dailyTotalSum stats := by
  unfold dailyTotalSum
  apply List.sum_nonneg
  intro x hx
  simp only [List.mem_map] at hx
  obtain ⟨d, _, rfl⟩ := hx
  positivity

theorem dailyDeviationSum_nonneg (stats : List (ℤ × DayStat)) (ideal : ℚ) :
    0 ≤ dailyDeviationSum stats ideal := by
  unfold dailyDeviationSum
  apply List.sum_nonneg
  intro x hx
  simp only [List.mem_map] at hx
  obtain ⟨d, _, rfl⟩ := hx
  positivity

/-- C7 fails as stated: for a same-day sprint (integer day-span 0) with one
active day of two changes, the code returns evenness 0 while the claim's
formula (day-span floored at 1) returns 100. -/
theorem c7_counterexample :
    calculate_transition_evenness [(0, ⟨0, 0, 2⟩)] 0 = 0 ∧
    claimEvenness [(0, ⟨0, 0, 2⟩)] 0 = 100 := by
  constructor
  · simp [calculate_transition_evenness, idealDaily]
  · simp [claimEvenness, dailyTotalSum, dailyDeviationSum]

/-- C7 (amended): evenness is 0 when there is no activity, and 0 whenever the
sprint's integer day-span is `<= 0` (there is no minimum of 1 on the live
Timedelta path); with activity, positive day-span and a non-zero change
count, it equals `max 0 (100 * (1 - variance / ideal_daily))` with
`ideal_daily = total_changes / duration_days` and `variance` the mean
absolute deviation over active days; and the result always lies in [0,100]. -/
theorem c7_evenness (dailyStats : List (ℤ × DayStat)) (durationDays : ℤ) :
    0 ≤ calculate_transition_evenness dailyStats durationDays ∧
    calculate_transition_evenness dailyStats durationDays ≤ 100 ∧
    (dailyStats = [] → calculate_transition_evenness dailyStats durationDays = 0) ∧
    (durationDays ≤ 0 → calculate_transition_evenness dailyStats durationDays = 0) ∧
    (dailyStats ≠ [] → 0 < durationDays → dailyTotalSum dailyStats ≠ 0 →
      calculate_transition_evenness dailyStats durationDays =
        max 0 (100 * (1 -
          (dailyDeviationSum dailyStats (dailyTotalSum dailyStats / durationDays) /
            dailyStats.length) /
          (dailyTotalSum dailyStats / durationDays)))) := by
  have hidnn : 0 ≤ idealDaily dailyStats durationDays := by
    unfold idealDaily
    split_ifs with hdur
    · exact div_nonneg (dailyTotalSum_nonneg _) (by exact_mod_cast hdur.le)
    · exact le_refl 0
  refine ⟨?_, ?_, ?_, ?_, ?_⟩
  · unfold calculate_transition_evenness
    split_ifs
    · exact le_refl 0
    · exact le_refl 0
    · exact le_max_left 0 _
  · unfold calculate_transition_evenness
    split_ifs with h1 h2
    · norm_num
    · norm_num
    · push_neg at h2
      obtain ⟨hlen, hideal⟩ := h2
      have hidpos : 0 < idealDaily dailyStats durationDays :=
        lt_of_le_of_ne hidnn (Ne.symm hideal)
      have hlennn : (0 : ℚ) ≤ (dailyStats.length : ℚ) := by positivity
      have hvar : 0 ≤ dailyDeviationSum dailyStats (idealDaily dailyStats durationDays) /
          (dailyStats.length : ℚ) :=
        div_nonneg (dailyDeviationSum_nonneg _ _) hlennn
      have hterm : 0 ≤ dailyDeviationSum dailyStats (idealDaily dailyStats durationDays) /
          (dailyStats.length : ℚ) / idealDaily dailyStats durationDays * 100 :=
        mul_nonneg (div_nonneg hvar hidpos.le) (by norm_num)
      apply max_le (by norm_num)
      linarith
  · intro h
    subst h
    rfl
  · intro h
    have hid : idealDaily dailyStats durationDays = 0 := by
      unfold idealDaily
      rw [if_neg (not_lt.mpr h)]
    unfold calculate_transition_evenness
    by_cases hemp : dailyStats.isEmpty
    · rw [if_pos hemp]
    · rw [if_neg hemp, if_pos (Or.inr hid)]
  · intro hne hd htot
    have hemp : ¬ dailyStats.isEmpty = true := by
      intro hc
      exact hne (List.isEmpty_iff.mp hc)
    have hid : idealDaily dailyStats durationDays = dailyTotalSum dailyStats / durationDays := by
      unfold idealDaily
      rw [if_pos hd]
    have hidne : idealDaily dailyStats durationDays ≠ 0 := by
      rw [hid]
      exact div_ne_zero htot (by exact_mod_cast hd.ne')
    have hlen : ((dailyStats.length : ℕ) : ℚ) ≠ 0 := by
      intro hz
      have : dailyStats.length = 0 := by exact_mod_cast hz
      exact hne (List.length_eq_zero.mp this)
    unfold calculate_transition_evenness
    rw [if_neg hemp, if_neg (by push_neg; exact ⟨hlen, hidne⟩), hid]
    congr 1
    ring

/-- Two active days with 3 and 1 changes over a two-day span. -/
def evenSampleStats : List (ℤ × DayStat) :=
  [(0, ⟨1, 0, 3⟩), (1, ⟨0, 1, 1⟩)]

theorem c7_evenness_witness :
    evenSampleStats ≠ [] ∧ (0 : ℤ) < 2 ∧ dailyTotalSum evenSampleStats ≠ 0 ∧
    calculate_transition_evenness evenSampleStats 2 =
      max 0 (100 * (1 -
        (dailyDeviationSum evenSampleStats (dailyTotalSum evenSampleStats / ((2 : ℤ) : ℚ)) /
          (evenSampleStats.length : ℚ)) /
        (dailyTotalSum evenSampleStats / ((2 : ℤ) : ℚ)))) := by
  have h1 : evenSampleStats ≠ [] := by simp [evenSampleStats]
  have h3 : dailyTotalSum evenSampleStats ≠ 0 := by
    simp [dailyTotalSum, evenSampleStats]
    norm_num
  exact ⟨h1, by norm_num, h3,
    (c7_evenness evenSampleStats 2).2.2.2.2 h1 (by norm_num) h3⟩

/-- A history row.  `change` is `none` when the cell is not a string
(`isinstance(history_change, str)` fails, e.g. a `NaN`). -/
structure HistoryEvent where
  entityId : ℤ
  propertyName : String
  date : ℚ
  change : Option String
  deriving Repr, DecidableEq

/-- The history table: `hasPropertyColumn = false` models a frame missing the
`history_property_name` column; an empty `rows` list models `history_df.empty`. -/
structure HistoryTable where
  hasPropertyColumn : Bool
  rows : List HistoryEvent
  deriving Repr, DecidableEq

/-- The degraded-result guard shared by `calculate_excluded_tasks`,
`calculate_added_tasks` and `analyze_status_transitions` (crud.py:139,177,215):
`history_df.empty or 'history_property_name' not in history_df.columns`. -/
def historyDegraded (h : HistoryTable) : Bool :=
  h.rows.isEmpty || !h.hasPropertyColumn

/-- Sprint-field changes inside the window (crud.py:147-151). -/
def sprintFieldChanges (h : HistoryTable) (sprintStart sprintEnd : ℚ) :
    List HistoryEvent :=
  h.rows.filter (fun ev =>
    ev.propertyName = "Спринт" && decide (sprintStart ≤ ev.date) &&
      decide (ev.date ≤ sprintEnd))

/-- Accumulate `{hours, count}` for one calendar day into the daily map
(crud.py:166-169): create the entry if absent, then add. -/
def addDailyEntry (m : List (ℤ × ℚ × ℕ)) (day : ℤ) (hrs : ℚ) :
    List (ℤ × ℚ × ℕ) :=
  if m.any (fun e => e.1 = day) then
    m.map (fun e => if e.1 = day then (e.1, e.2.1 + hrs, e.2.2 + 1) else e)
  else m ++ [(day, hrs, 1)]

/-- One step of the excluded/added scan (crud.py:156-169): if the change text
contains the marker and the task exists, accumulate its estimation in hours
on the event's calendar day. -/
def dailyScanStep (marker : String) (tasks : List Task)
    (m : List (ℤ × ℚ × ℕ)) (ev : HistoryEvent) : List (ℤ × ℚ × ℕ) :=
  match ev.change with
  | none => m
  | some c =>
      if containsSub marker c then
        match tasks.find? (fun t => t.entityId = ev.entityId) with
        | some task => addDailyEntry m ⌊ev.date⌋ (task.estimation / 3600)
        | none => m
      else m

/-- `calculate_excluded_tasks` (crud.py:136-172). -/
def calculate_excluded_tasks (tasks : List Task) (sprintStart sprintEnd : ℚ)
    (h : HistoryTable) : List (ℤ × ℚ × ℕ) :=
  if historyDegraded h then []
  else (sprintFieldChanges h sprintStart sprintEnd).foldl
    (dailyScanStep "-> <empty>" tasks) []

/-- `calculate_added_tasks` (crud.py:174-210). -/
def calculate_added_tasks (tasks : List Task) (sprintStart sprintEnd : ℚ)
    (h : HistoryTable) : List (ℤ × ℚ × ℕ) :=
  if historyDegraded h then []
  else (sprintFieldChanges h sprintStart sprintEnd).foldl
    (dailyScanStep "<empty> ->" tasks) []

/-- The `to_in_progress` transition patterns (crud.py:239-251). -/
def toInProgressPatterns : List String :=
  ["создано -> в работе", "к выполнению -> в работе", "анализ -> разработка",
   "готово к разработке -> в разработке", "-> в работе", "-> разработка",
   "-> тестирование", "создано -> разработка", "создано -> анализ",
   "-> в процессе", "-> исправление"]

/-- The `to_done` transition patterns (crud.py:252-260). -/
def toDonePatterns : List String :=
  ["-> выполнено", "-> закрыто", "-> ст завершено", "-> завершено",
   "в работе -> закрыто", "тестирование -> закрыто", "разработка -> выполнено"]

/-- `str(change['history_change']).lower()` (crud.py:265): a non-string cell
stringifies to `nan`. -/
def changeText (ev : HistoryEvent) : String :=
  match ev.change with
  | some c => ruLower c
  | none => "nan"

/-- Per-event counter update (crud.py:276-287): at most one `to_in_progress`
pattern hit, at most one `to_done` hit, and the total always increments. -/
def eventIncrement (txt : String) (st : DayStat) : DayStat :=
  let s1 := if toInProgressPatterns.any (fun p => containsSub p txt) then
      { st with toInProgress := st.toInProgress + 1 } else st
  let s2 := if toDonePatterns.any (fun p => containsSub p txt) then
      { s1 with toDone := s1.toDone + 1 } else s1
  { s2 with totalChanges := s2.totalChanges + 1 }

/-- Create-if-absent then update for the daily stats map (crud.py:268-274). -/
def updateDaily (stats : List (ℤ × DayStat)) (day : ℤ) (f : DayStat → DayStat) :
    List (ℤ × DayStat) :=
  if stats.any (fun e => e.1 = day) then
    stats.map (fun e => if e.1 = day then (e.1, f e.2) else e)
  else stats ++ [(day, f ⟨0, 0, 0⟩)]

/-- Status-field changes inside the sprint window (crud.py:229-233). -/
def statusChangesInWindow (h : HistoryTable) (sprintStart sprintEnd : ℚ) :
    List HistoryEvent :=
  h.rows.filter (fun ev =>
    ev.propertyName = "Статус" && decide (sprintStart ≤ ev.date) &&
      decide (ev.date ≤ sprintEnd))

/-- The result record of `analyze_status_transitions` (crud.py:301-305). -/
structure TransitionAnalysis where
  lastDayCompletionPercentage : ℚ
  dailyDistribution : List (ℤ × DayStat)
  transitionEvenness : ℚ
  deriving Repr, DecidableEq

/-- `analyze_status_transitions` (crud.py:212-305).  `sprint_duration.days`
becomes `⌊sprint_end - sprint_start⌋`. -/
def analyze_status_transitions (_tasks : List Task) (h : HistoryTable)
    (sprintStart sprintEnd : ℚ) : TransitionAnalysis :=
  if historyDegraded h then ⟨0, [], 0⟩
  else
    let dailyStats := (statusChangesInWindow h sprintStart sprintEnd).foldl
      (fun st ev => updateDaily st ⌊ev.date⌋ (eventIncrement (changeText ev))) []
    let totalToDone : ℕ := (dailyStats.map (fun d => d.2.toDone)).sum
    let lastDayDone : ℕ :=
      ((dailyStats.find? (fun d => decide (d.1 = ⌊sprintEnd⌋))).map
        (fun p => p.2.toDone)).getD 0
    let evenness := calculate_transition_evenness dailyStats ⌊sprintEnd - sprintStart⌋
    let lastDayPct : ℚ :=
      if 0 < totalToDone then (lastDayDone : ℚ) / (totalToDone : ℚ) * 100 else 0
    ⟨lastDayPct, dailyStats, evenness⟩

/-- C8: when the history table is empty or lacks the
`history_property_name` column, the excluded- and added-task aggregators
return the empty map and the transition analyzer returns the zeroed
structure; no exception is raised (all three are total functions). -/
theorem c8_degraded_history (tasks : List Task) (sprintStart sprintEnd : ℚ)
    (h : HistoryTable) (hdeg : h.rows = [] ∨ h.hasPropertyColumn = false) :
    calculate_excluded_tasks tasks sprintStart sprintEnd h = [] ∧
    calculate_added_tasks tasks sprintStart sprintEnd h = [] ∧
    analyze_status_transitions tasks h sprintStart sprintEnd = ⟨0, [], 0⟩ := by
  have hg : historyDegraded h = true := by
    unfold historyDegraded
    rcases hdeg with hr | hc
    · simp [hr]
    · simp [hc]
  refine ⟨?_, ?_, ?_⟩
  · unfold calculate_excluded_tasks
    rw [if_pos hg]
  · unfold calculate_added_tasks
    rw [if_pos hg]
  · unfold analyze_status_transitions
    rw [if_pos hg]

theorem c8_degraded_history_witness :
    ((HistoryTable.mk true []).rows = [] ∨
      (HistoryTable.mk true []).hasPropertyColumn = false) ∧
    (calculate_excluded_tasks [] 0 14 (HistoryTable.mk true []) = [] ∧
      calculate_added_tasks [] 0 14 (HistoryTable.mk true []) = [] ∧
      analyze_status_transitions [] (HistoryTable.mk true []) 0 14 = ⟨0, [], 0⟩) :=
  ⟨Or.inl rfl, c8_degraded_history [] 0 14 (HistoryTable.mk true []) (Or.inl rfl)⟩

/-- Post-filter normalization of `calculate_metrics` (crud.py:558-559):
`status` and `resolution` are lower-cased and stripped on the per-query copy. -/
def normalizeTask (t : Task) : Task :=
  { t with status := (ruLower t.status).trim,
           resolution := t.resolution.map (fun r => (ruLower r).trim) }

/-- The filtered per-query task set of `calculate_metrics` (crud.py:544-569):
sprint/time-frame filter, normalization, then area filter. -/
def sprintTasksAt (tasks : List Task) (entityIds : List ℤ) (areas : List String)
    (s e p : ℚ) : List Task :=
  ((timeFrameFilter tasks entityIds (cutoffDate s e p)).map normalizeTask).filter
    (fun t => areas.contains t.area)

/-- The done hour-sum computed through the pipeline at time frame `p`. -/
def doneHoursAt (tasks : List Task) (entityIds : List ℤ) (areas : List String)
    (s e p : ℚ) : ℚ :=
  calculate_done (sprintTasksAt tasks entityIds areas s e p)

/-- The done task count computed through the pipeline at time frame `p`. -/
def doneCountAt (tasks : List Task) (entityIds : List ℤ) (areas : List String)
    (s e p : ℚ) : ℕ :=
  ((sprintTasksAt tasks entityIds areas s e p).filter isDoneTask).length

theorem cutoffDate_mono {s e p1 p2 : ℚ} (hse : s ≤ e) (h12 : p1 ≤ p2) :
    cutoffDate s e p1 ≤ cutoffDate s e p2 := by
  unfold cutoffDate
  have hes : 0 ≤ e - s := by linarith
  have hp : p1 / 100 ≤ p2 / 100 := by linarith
  nlinarith

theorem timeFramePred_mono (entityIds : List ℤ) {c1 c2 : ℚ} (h : c1 ≤ c2) :
    ∀ t, timeFramePred entityIds c1 t = true → timeFramePred entityIds c2 t = true := by
  intro t ht
  unfold timeFramePred at ht ⊢
  simp only [Bool.and_eq_true, Bool.or_eq_true, decide_eq_true_eq] at ht ⊢
  obtain ⟨hid, hcond⟩ := ht
  refine ⟨hid, ?_⟩
  cases hu : t.updateDate with
  | none =>
      simp [hu] at hcond ⊢
      exact le_trans hcond h
  | some u =>
      simp [hu] at hcond ⊢
      rcases hcond with hc | hc
      · exact Or.inl (le_trans hc h)
      · exact Or.inr (le_trans hc h)

theorem sprintTasksAt_sublist (tasks : List Task) (entityIds : List ℤ)
    (areas : List String) {s e p1 p2 : ℚ} (hse : s ≤ e) (h12 : p1 ≤ p2) :
    List.Sublist (sprintTasksAt tasks entityIds areas s e p1)
      (sprintTasksAt tasks entityIds areas s e p2) := by
  unfold sprintTasksAt timeFrameFilter
  have hc := cutoffDate_mono hse h12
  have h1 := List.monotone_filter_right tasks (timeFramePred_mono entityIds hc)
  exact (h1.map normalizeTask).filter _

theorem mem_sprintTasksAt_estimation (tasks : List Task) (entityIds : List ℤ)
    (areas : List String) (s e p : ℚ)
    (hest : ∀ t ∈ tasks, 0 ≤ t.estimation) :
    ∀ t ∈ sprintTasksAt tasks entityIds areas s e p, 0 ≤ t.estimation := by
  intro t ht
  unfold sprintTasksAt timeFrameFilter at ht
  rw [List.mem_filter] at ht
  obtain ⟨htm, _⟩ := ht
  rw [List.mem_map] at htm
  obtain ⟨t0, ht0, rfl⟩ := htm
  rw [List.mem_filter] at ht0
  exact hest t0 ht0.1

/-- C9: for fixed sprint, area selection and snapshot with non-negative
estimations, the done hour-sum and the done count computed through the
time-frame filter are monotone in `time_frame_pct`. -/
theorem c9_done_monotone (tasks : List Task) (entityIds : List ℤ)
    (areas : List String) (s e p1 p2 : ℚ)
    (hest : ∀ t ∈ tasks, 0 ≤ t.estimation) (hse : s ≤ e)
    (_hp0 : 0 ≤ p1) (h12 : p1 ≤ p2) (_hp100 : p2 ≤ 100) :
    doneHoursAt tasks entityIds areas s e p1 ≤ doneHoursAt tasks entityIds areas s e p2 ∧
    doneCountAt tasks entityIds areas s e p1 ≤ doneCountAt tasks entityIds areas s e p2 := by
  have hsub := sprintTasksAt_sublist tasks entityIds areas hse h12
  have hsubdone := hsub.filter isDoneTask
  constructor
  · unfold doneHoursAt calculate_done
    apply round1_mono
    have hsum : estimationSum
        ((sprintTasksAt tasks entityIds areas s e p1).filter isDoneTask) ≤
        estimationSum ((sprintTasksAt tasks entityIds areas s e p2).filter isDoneTask) := by
      unfold estimationSum
      apply (hsubdone.map (fun t => t.estimation)).sum_le_sum
      intro x hx
      rw [List.mem_map] at hx
      obtain ⟨t, ht, rfl⟩ := hx
      rw [List.mem_filter] at ht
      exact mem_sprintTasksAt_estimation tasks entityIds areas s e p2 hest t ht.1
    linarith
  · exact hsubdone.length_le

/-- Witness ids/areas for C9: the three scenario-A tasks over a 14-day
sprint, time frames 0% and 100%. -/
theorem c9_done_monotone_witness :
    (∀ t ∈ sampleTasks, 0 ≤ t.estimation) ∧
    (doneHoursAt sampleTasks [1, 2, 3] ["Team"] 0 14 0 ≤
      doneHoursAt sampleTasks [1, 2, 3] ["Team"] 0 14 100 ∧
    doneCountAt sampleTasks [1, 2, 3] ["Team"] 0 14 0 ≤
      doneCountAt sampleTasks [1, 2, 3] ["Team"] 0 14 100) := by
  have hest : ∀ t ∈ sampleTasks, 0 ≤ t.estimation := by
    intro t ht
    fin_cases ht <;> norm_num [sampleTasks]
  exact ⟨hest, c9_done_monotone sampleTasks [1, 2, 3] ["Team"] 0 14 0 100 hest
    (by norm_num) (by norm_num) (by norm_num) (by norm_num)⟩

/-- A Python value as it flows through `calculate_sprint_health`'s metrics
dictionary: a number, a string, a nested dict, or `None`. -/
inductive PyVal where
  | num (q : ℚ)
  | str (s : String)
  | dict (entries : List (String × PyVal))
  | pyNone

/-- Dictionary lookup, `None`-free: the raw `find?`. -/
def dictFind (m : List (String × PyVal)) (k : String) : Option PyVal :=
  (m.find? (fun e => decide (e.1 = k))).map (fun e => e.2)

/-- Python `d[k]`: raises `KeyError` on a missing key. -/
def dictGet (m : List (String × PyVal)) (k : String) : Except String PyVal :=
  match dictFind m k with
  | some v => Except.ok v
  | none => Except.error "KeyError"

/-- Python `d.get(k, default)`. -/
def dictGetD (m : List (String × PyVal)) (k : String) (d : PyVal) : PyVal :=
  (dictFind m k).getD d

/-- Python `v.get(k, default)` on an arbitrary value: raises
`AttributeError` when `v` is not a dict. -/
def pyGetD (v : PyVal) (k : String) (d : PyVal) : Except String PyVal :=
  match v with
  | PyVal.dict m => Except.ok (dictGetD m k d)
  | _ => Except.error "AttributeError"

/-- Python `+`: numbers add, strings concatenate, anything else raises. -/
def pyAdd : PyVal → PyVal → Except String PyVal
  | PyVal.num a, PyVal.num b => Except.ok (PyVal.num (a + b))
  | PyVal.str a, PyVal.str b => Except.ok (PyVal.str (a ++ b))
  | _, _ => Except.error "TypeError"

/-- Python `-` on the values this function subtracts (number minus number). -/
def pySub : PyVal → PyVal → Except String PyVal
  | PyVal.num a, PyVal.num b => Except.ok (PyVal.num (a - b))
  | _, _ => Except.error "TypeError"

/-- Python `*` on the values this function multiplies. -/
def pyMul : PyVal → PyVal → Except String PyVal
  | PyVal.num a, PyVal.num b => Except.ok (PyVal.num (a * b))
  | _, _ => Except.error "TypeError"

/-- Python `/`: `ZeroDivisionError` on a zero denominator, `TypeError` on
non-numbers. -/
def pyDiv : PyVal → PyVal → Except String PyVal
  | PyVal.num a, PyVal.num b =>
      if b = 0 then Except.error "ZeroDivisionError" else Except.ok (PyVal.num (a / b))
  | _, _ => Except.error "TypeError"

/-- Python `>` on the mixed values this function compares: numbers compare,
a number against anything else raises `TypeError`. -/
def pyGt : PyVal → PyVal → Except String Bool
  | PyVal.num a, PyVal.num b => Except.ok (decide (b < a))
  | _, _ => Except.error "TypeError"

/-- Python `==` against a number: never raises; a non-number is unequal. -/
def pyEqNum (v : PyVal) (q : ℚ) : Bool :=
  match v with
  | PyVal.num a => decide (a = q)
  | _ => false

/-- Extract the rational of a numeric value, `TypeError` otherwise. -/
def pyToQ : PyVal → Except String ℚ
  | PyVal.num a => Except.ok a
  | _ => Except.error "TypeError"

/-- The result record of `calculate_sprint_health` (crud.py:383-395):
`score` plus the eight detail fields. -/
structure HealthResult where
  score : ℚ
  deliveryScore : ℚ
  stabilityScore : ℚ
  flowScore : ℚ
  qualityScore : ℚ
  teamLoadScore : ℚ
  completionRate : ℚ
  blockedRatio : ℚ
  lastDayCompletion : ℚ
  deriving Repr, DecidableEq

/-- The zeroed result (crud.py:347-360 and 398-410). -/
def zeroHealthResult : HealthResult :=
  ⟨0, 0, 0, 0, 0, 0, 0, 0, 0⟩

/-- The body of the `try` block of `calculate_sprint_health`
(crud.py:345-395), with Python's dynamic failures surfaced in `Except`. -/
def sprintHealthBody (metrics : List (String × PyVal)) : Except String HealthResult := do
  let todoV ← dictGet metrics "todo"
  let inProgressV ← dictGet metrics "in_progress"
  let doneV ← dictGet metrics "done"
  let removedV ← dictGet metrics "removed"
  let sum1 ← pyAdd todoV inProgressV
  let sum2 ← pyAdd sum1 doneV
  let totalTasks ← pyAdd sum2 removedV
  if pyEqNum totalTasks 0 then
    return zeroHealthResult
  else
    let gtZero ← pyGt totalTasks (PyVal.num 0)
    let completionRate : ℚ ←
      if gtZero then do
        let d ← pyDiv doneV totalTasks
        let m ← pyMul d (PyVal.num 100)
        pyToQ m
      else pure 0
    let blockedV ← dictGet metrics "blocked_tasks"
    let blockedRatio : ℚ ←
      if gtZero then do
        let d ← pyDiv blockedV totalTasks
        let m ← pyMul d (PyVal.num 100)
        pyToQ m
      else pure 0
    let lastDayV ← pyGetD (dictGetD metrics "status_transitions" (PyVal.dict []))
      "last_day_completion_percentage" (PyVal.num 0)
    let deliveryScore := min 100 (max 0 completionRate)
    let backlogV ← dictGet metrics "backlog_changes"
    let stabilityBase ← pySub (PyVal.num 100) backlogV
    let stabilityQ ← pyToQ stabilityBase
    let stabilityScore := min 100 (max 0 stabilityQ)
    let flowScore := min 100 (max 0 (100 - blockedRatio))
    let qualityBase ← pySub (PyVal.num 100) lastDayV
    let qualityQ ← pyToQ qualityBase
    let qualityScore := min 100 (max 0 qualityQ)
    let teamLoadScore : ℚ := 80
    let healthScore := deliveryScore * 0.25 + stabilityScore * 0.20 +
      flowScore * 0.20 + qualityScore * 0.20 + teamLoadScore * 0.15
    let lastDayQ ← pyToQ lastDayV
    return { score := round1 healthScore, deliveryScore := round1 deliveryScore,
             stabilityScore := round1 stabilityScore, flowScore := round1 flowScore,
             qualityScore := round1 qualityScore, teamLoadScore := round1 teamLoadScore,
             completionRate := round1 completionRate, blockedRatio := round1 blockedRatio,
             lastDayCompletion := round1 lastDayQ }

/-- `calculate_sprint_health` (crud.py:343-410): the `try`/`except` wrapper
returning the zeroed result on any internal failure. -/
def calculate_sprint_health (metrics : List (String × PyVal)) : HealthResult :=
  match sprintHealthBody metrics with
  | Except.ok r => r
  | Except.error _ => zeroHealthResult

/-- C10: the weighted health-score calculator is total — for every metrics
dictionary it returns a result record, which is either the zeroed record or
the successful value of its body; and whenever the body raises (missing key,
non-numeric value, type error), the result is score 0 with every detail
sub-score zero. -/
theorem c10_health_total (metrics : List (String × PyVal)) :
    (calculate_sprint_health metrics = zeroHealthResult ∨
      sprintHealthBody metrics = Except.ok (calculate_sprint_health metrics)) ∧
    (∀ err, sprintHealthBody metrics = Except.error err →
      calculate_sprint_health metrics = zeroHealthResult) := by
  unfold calculate_sprint_health
  cases hb : sprintHealthBody metrics with
  | ok r =>
      refine ⟨Or.inr rfl, ?_⟩
      intro err he
      cases he
  | error e =>
      exact ⟨Or.inl rfl, fun err _ => rfl⟩

theorem c10_health_total_witness :
    sprintHealthBody [("todo", PyVal.str "n/a")] = Except.error "KeyError" ∧
    calculate_sprint_health [("todo", PyVal.str "n/a")] = zeroHealthResult :=
  ⟨rfl, (c10_health_total [("todo", PyVal.str "n/a")]).2 "KeyError" rfl⟩

end SprintHealth
